import Mathlib

/-!
Shallow embedding of the Solarman V5 framing core of this repository
(file `src/solarmanv5.rs`): the Frame Codec (Request encoding, Response
decoding) and the Device Session operations `detect_serial` and
`send_modbus_frame`.

Bytes are modelled as `Nat` values below 256 produced by the same digit
arithmetic the Rust integer conversions perform. Rust operations that can
panic (slice indexing out of bounds, `try_into().expect(..)`) are modelled
as `Option`-valued functions returning `none` on the panicking inputs.
Network I/O is modelled by passing the buffer that `read_exact` filled (or
`none` for a connect/write/read failure) as an explicit argument.
-/

/-- Little-endian byte pair of a `u16` value (`u16::to_le_bytes`). -/
def u16_to_le_bytes (n : Nat) : List Nat :=
  [n % 256, n / 256 % 256]

/-- Big-endian byte pair of a `u16` value (`u16::to_be_bytes`). -/
def u16_to_be_bytes (n : Nat) : List Nat :=
  [n / 256 % 256, n % 256]

/-- Little-endian bytes of a `u32` value (`u32::to_le_bytes`). -/
def u32_to_le_bytes (n : Nat) : List Nat :=
  [n % 256, n / 256 % 256, n / 65536 % 256, n / 16777216 % 256]

/-- Mirrors struct `RequestHeader`: message id and 4-byte logger serial. -/
structure RequestHeader where
  msg_id : Nat
  logger_serial : List Nat
deriving DecidableEq

/-- Mirrors `RequestHeader::to_bytes`: start byte `0xA5`, payload length
little-endian, control bytes `0x10 0x45`, message id little-endian, then
the logger serial. -/
def RequestHeader.to_bytes (h : RequestHeader) (payload_length : Nat) : List Nat :=
  [0xA5] ++ u16_to_le_bytes payload_length ++ [0x10, 0x45] ++
    u16_to_le_bytes h.msg_id ++ h.logger_serial

/-- Mirrors enum `RequestFrameType`. -/
inductive RequestFrameType where
  | SolarInverter
  | DataLoggingStick
  | SolarmanCloud
deriving DecidableEq

/-- Discriminant of `RequestFrameType` (its `repr(u8)` value). -/
def RequestFrameType.toU8 : RequestFrameType → Nat
  | .SolarInverter => 0x02
  | .DataLoggingStick => 0x01
  | .SolarmanCloud => 0x00

/-- Mirrors struct `RequestPayload`. -/
structure RequestPayload where
  frame_type : RequestFrameType
  sensor_type : Nat
  total_working_second : Nat
  uptime_second : Nat
  offset_seconds : Nat
  modbus_rtu_frame : List Nat
deriving DecidableEq

/-- Mirrors `RequestPayload::to_bytes`: frame type byte, sensor type
big-endian, the three timing fields little-endian, then the opaque
modbus RTU frame verbatim. -/
def RequestPayload.to_bytes (p : RequestPayload) : List Nat :=
  [p.frame_type.toU8] ++ u16_to_be_bytes p.sensor_type ++
    u32_to_le_bytes p.total_working_second ++
    u32_to_le_bytes p.uptime_second ++
    u32_to_le_bytes p.offset_seconds ++
    p.modbus_rtu_frame

/-- Mirrors `RequestPayload::length`: `15 + frame length` converted to
`u16`; the conversion panics (`none`) when the sum exceeds `u16::MAX`. -/
def RequestPayload.length (p : RequestPayload) : Option Nat :=
  if 15 + p.modbus_rtu_frame.length ≤ 65535 then
    some (15 + p.modbus_rtu_frame.length)
  else
    none

/-- Mirrors struct `Request`. -/
structure Request where
  header : RequestHeader
  payload : RequestPayload
deriving DecidableEq

/-- Mirrors `Request::to_bytes`: header bytes, payload bytes, then a
checksum byte (sum of all bytes after the start byte, accumulated as
`u32` and truncated to `u8`) and the terminator `0x15`. -/
def Request.to_bytes (r : Request) : Option (List Nat) :=
  match r.payload.length with
  | none => none
  | some payload_length =>
    let bytes := r.header.to_bytes payload_length ++ r.payload.to_bytes
    let checksum := (bytes.drop 1).sum % 4294967296 % 256
    some (bytes ++ [checksum, 0x15])

/-- Mirrors struct `ResponseHeader`. -/
structure ResponseHeader where
  length : Nat
  msg_id : List Nat
  logger_serial : List Nat
deriving DecidableEq

/-- Mirrors `ResponseHeader::from_bytes`: little-endian length from bytes
1..3, message id from bytes 5..7, logger serial from bytes 7..11. The
Rust slice indexing panics (`none`) on buffers shorter than 11 bytes. -/
def ResponseHeader.from_bytes (data : List Nat) : Option ResponseHeader :=
  if 11 ≤ data.length then
    some { length := data.getD 1 0 + 256 * data.getD 2 0
           msg_id := (data.drop 5).take 2
           logger_serial := (data.drop 7).take 4 }
  else
    none

/-- Mirrors struct `ResponsePayload`. -/
structure ResponsePayload where
  status : Nat
  total_working_time : List Nat
  power_on_time : List Nat
  offset_time : List Nat
  rtu_frame : List Nat
  checksum : Nat
deriving DecidableEq

/-- Mirrors `ResponsePayload::from_bytes`: status at index 1, the three
timing fields at 2..6, 6..10, 10..14, the RTU frame from index 14 up to
but excluding the final two bytes, and the checksum at index `len - 2`.
The Rust slice indexing panics (`none`) on buffers shorter than 16
bytes. -/
def ResponsePayload.from_bytes (data : List Nat) : Option ResponsePayload :=
  if 16 ≤ data.length then
    some { status := data.getD 1 0
           total_working_time := (data.drop 2).take 4
           power_on_time := (data.drop 6).take 4
           offset_time := (data.drop 10).take 4
           rtu_frame := (data.drop 14).take (data.length - 2 - 14)
           checksum := data.getD (data.length - 2) 0 }
  else
    none

/-- Mirrors struct `Response`. -/
structure Response where
  header : ResponseHeader
  payload : ResponsePayload
deriving DecidableEq

/-- Mirrors `Response::from_bytes`: header from the first 11 bytes,
payload from the remaining bytes. Slicing `data[0..11]` panics (`none`)
on buffers shorter than 11 bytes. -/
def Response.from_bytes (data : List Nat) : Option Response :=
  if 11 ≤ data.length then
    match ResponseHeader.from_bytes (data.take 11),
          ResponsePayload.from_bytes (data.drop 11) with
    | some h, some p => some { header := h, payload := p }
    | _, _ => none
  else
    none

/-- Mirrors struct `SolarmanDevice`: address, port, timeout and the
session's logger serial. The address is abstracted to a `Nat`. -/
structure SolarmanDevice where
  addr : Nat
  port : Nat
  timeout : Nat
  logger_serial : List Nat
deriving DecidableEq

/-- The request built inside `SolarmanDevice::detect_serial`: message id
0, the device's current logger serial, frame type `SolarInverter`,
sensor type 0, all timing fields 0, and an empty embedded frame. -/
def detect_serial_request (dev : SolarmanDevice) : Request :=
  { header := { msg_id := 0, logger_serial := dev.logger_serial }
    payload := { frame_type := .SolarInverter
                 sensor_type := 0
                 total_working_second := 0
                 uptime_second := 0
                 offset_seconds := 0
                 modbus_rtu_frame := [] } }

/-- Mirrors `SolarmanDevice::detect_serial`. The first component is the
byte sequence written to the connection; `response_buffer` is the
29-byte buffer filled by `read_exact`; the second component is the
updated device, whose `logger_serial` is taken from the decoded response
header. -/
def SolarmanDevice.detect_serial (dev : SolarmanDevice) (response_buffer : List Nat) :
    Option (List Nat) × Option SolarmanDevice :=
  ((detect_serial_request dev).to_bytes,
    match Response.from_bytes response_buffer with
    | some response => some { dev with logger_serial := response.header.logger_serial }
    | none => none)

/-- Mirrors `SolarmanDevice::new` followed by `detect_serial`: the device
starts with an all-zero logger serial. -/
def SolarmanDevice.new (addr port timeout : Nat) : SolarmanDevice :=
  { addr := addr, port := port, timeout := timeout, logger_serial := [0, 0, 0, 0] }

/-- Mirrors `SolarmanDevice::send_modbus_frame`. `network_response` is
`some buffer` when connect/write/`read_exact` succeeded and filled the
140-byte buffer, `none` on any I/O failure. Returns the device (Rust
takes `&mut self` but never assigns to any field here) together with the
decoded payload's RTU frame, or `none` on failure. -/
def SolarmanDevice.send_modbus_frame (dev : SolarmanDevice) (frame : List Nat)
    (network_response : Option (List Nat)) : SolarmanDevice × Option (List Nat) :=
  let request : Request :=
    { header := { msg_id := 0, logger_serial := dev.logger_serial }
      payload := { frame_type := .SolarInverter
                   sensor_type := 0
                   total_working_second := 0
                   uptime_second := 0
                   offset_seconds := 0
                   modbus_rtu_frame := frame } }
  match request.to_bytes with
  | none => (dev, none)
  | some _ =>
    match network_response with
    | none => (dev, none)
    | some response_buffer =>
      match Response.from_bytes response_buffer with
      | some response => (dev, some response.payload.rtu_frame)
      | none => (dev, none)

/-- Closed form of `ResponseHeader.from_bytes` on buffers of length at
least 11. -/
theorem header_from_bytes_some (data : List Nat) (h : 11 ≤ data.length) :
    ResponseHeader.from_bytes data = some
      { length := data.getD 1 0 + 256 * data.getD 2 0
        msg_id := (data.drop 5).take 2
        logger_serial := (data.drop 7).take 4 } := by
  rw [ResponseHeader.from_bytes, if_pos h]

/-- Closed form of `ResponsePayload.from_bytes` on buffers of length at
least 16. -/
theorem payload_from_bytes_some (data : List Nat) (h : 16 ≤ data.length) :
    ResponsePayload.from_bytes data = some
      { status := data.getD 1 0
        total_working_time := (data.drop 2).take 4
        power_on_time := (data.drop 6).take 4
        offset_time := (data.drop 10).take 4
        rtu_frame := (data.drop 14).take (data.length - 2 - 14)
        checksum := data.getD (data.length - 2) 0 } := by
  rw [ResponsePayload.from_bytes, if_pos h]

/-- Closed form of `Response.from_bytes` on any buffer of length at least
27 (11 header bytes plus the 16-byte minimum payload skeleton): decoding
succeeds and every field is a fixed slice of the buffer. -/
theorem Response.from_bytes_eq (data : List Nat) (h : 27 ≤ data.length) :
    Response.from_bytes data = some
      { header := { length := data.getD 1 0 + 256 * data.getD 2 0
                    msg_id := (data.drop 5).take 2
                    logger_serial := (data.drop 7).take 4 }
        payload := { status := data.getD 12 0
                     total_working_time := (data.drop 13).take 4
                     power_on_time := (data.drop 17).take 4
                     offset_time := (data.drop 21).take 4
                     rtu_frame := (data.drop 25).take (data.length - 27)
                     checksum := data.getD (data.length - 2) 0 } } := by
  have h1 : 11 ≤ data.length := by omega
  have h2 : 11 ≤ (data.take 11).length := by
    simp only [List.length_take]
    omega
  have h3 : 16 ≤ (data.drop 11).length := by
    simp only [List.length_drop]
    omega
  rw [Response.from_bytes, if_pos h1, header_from_bytes_some _ h2,
    payload_from_bytes_some _ h3]
  simp only [Option.some.injEq, Response.mk.injEq, ResponseHeader.mk.injEq,
    ResponsePayload.mk.injEq, List.length_drop]
  refine ⟨⟨?_, ?_, ?_⟩, ?_, ?_, ?_, ?_, ?_, ?_⟩
  · simp [List.getD_eq_getElem?_getD, List.getElem?_take_of_lt]
  · simp [List.drop_take, List.take_take]
  · simp [List.drop_take, List.take_take]
  · simp [List.getD_eq_getElem?_getD, List.getElem?_drop]
  · simp [List.drop_drop]
  · simp [List.drop_drop]
  · simp [List.drop_drop]
  · rw [List.drop_drop]
    refine congrArg₂ _ (by omega) (by norm_num)
  · simp only [List.getD_eq_getElem?_getD, List.getElem?_drop]
    rw [show 11 + (data.length - 11 - 2) = data.length - 2 from by omega]

/-- C3: decoding a buffer shorter than the fixed header+payload skeleton
(11 header bytes plus the 16-byte minimum payload skeleton, 27 bytes in
total) deterministically fails to produce a `Response`: the decoder,
whose panicking slice accesses are modelled as `none`, returns `none`. -/
theorem short_buffer_rejected (data : List Nat) (h : data.length < 27) :
    Response.from_bytes data = none := by
  by_cases h11 : 11 ≤ data.length
  · have hd : ¬ 16 ≤ data.length - 11 := by omega
    simp [Response.from_bytes, ResponseHeader.from_bytes, ResponsePayload.from_bytes,
      if_pos h11, if_neg hd]
  · simp [Response.from_bytes, if_neg h11]

/-- Witness for C3 at the empty buffer. -/
theorem short_buffer_rejected_witness :
    ([] : List Nat).length < 27 ∧ Response.from_bytes [] = none :=
  ⟨by decide, short_buffer_rejected [] (by decide)⟩

/-- Closed form of `Request.to_bytes` when the payload length fits the
`u16` length field, i.e. the embedded frame has at most 65520 bytes. -/
theorem Request.to_bytes_some (r : Request) (h : r.payload.modbus_rtu_frame.length ≤ 65520) :
    Request.to_bytes r = some
      (r.header.to_bytes (15 + r.payload.modbus_rtu_frame.length) ++ r.payload.to_bytes ++
        [((r.header.to_bytes (15 + r.payload.modbus_rtu_frame.length) ++
            r.payload.to_bytes).drop 1).sum % 4294967296 % 256, 0x15]) := by
  have hl : r.payload.length = some (15 + r.payload.modbus_rtu_frame.length) := by
    rw [RequestPayload.length, if_pos (by omega)]
  rw [Request.to_bytes, hl]

/-- Length of the assembled header plus payload bytes: 11 header bytes
(for a 4-byte serial) plus 15 fixed payload bytes plus the frame. -/
theorem assembled_length (r : Request) (h4 : r.header.logger_serial.length = 4) :
    (r.header.to_bytes (15 + r.payload.modbus_rtu_frame.length) ++ r.payload.to_bytes).length
      = 26 + r.payload.modbus_rtu_frame.length := by
  simp [RequestHeader.to_bytes, RequestPayload.to_bytes, u16_to_le_bytes, u16_to_be_bytes,
    u32_to_le_bytes, h4]
  omega

/-- Encoding fails (the `u16` conversion in `RequestPayload::length`
panics) whenever the embedded frame is longer than 65520 bytes. -/
theorem Request.to_bytes_none (r : Request) (h : 65520 < r.payload.modbus_rtu_frame.length) :
    Request.to_bytes r = none := by
  have hl : r.payload.length = none := by
    rw [RequestPayload.length, if_neg]
    omega
  rw [Request.to_bytes, hl]

/-- C6 counterexample: a frame of exactly 65521 bytes makes `15 + N`
overflow the unsigned 16-bit length field, so encoding panics (`none`)
rather than producing a length field equal to `15 + 65521`. -/
theorem length_field_cex :
    (List.replicate 65521 0).length = 65521 ∧
    Request.to_bytes
      { header := { msg_id := 0, logger_serial := [0, 0, 0, 0] }
        payload := { frame_type := .SolarInverter, sensor_type := 0,
                     total_working_second := 0, uptime_second := 0,
                     offset_seconds := 0,
                     modbus_rtu_frame := List.replicate 65521 0 } } = none := by
  constructor
  · rw [List.length_replicate]
  · refine Request.to_bytes_none _ ?_
    rw [List.length_replicate]
    omega

/-- C6 (amended): for every embedded frame of length `N ≤ 65520`, the
2-byte little-endian payload-length field of the encoded Request (bytes 1
and 2) decodes to exactly `15 + N`. -/
theorem length_field_value (hd : RequestHeader) (p : RequestPayload)
    (h : p.modbus_rtu_frame.length ≤ 65520) :
    ∃ bytes, Request.to_bytes { header := hd, payload := p } = some bytes ∧
      bytes.getD 1 0 + 256 * bytes.getD 2 0 = 15 + p.modbus_rtu_frame.length := by
  refine ⟨_, Request.to_bytes_some _ h, ?_⟩
  have hdiv : (15 + p.modbus_rtu_frame.length) / 256 < 256 :=
    Nat.div_lt_of_lt_mul (by omega)
  simp only [RequestHeader.to_bytes, u16_to_le_bytes]
  simp only [List.append_assoc, List.cons_append, List.nil_append, List.getD_cons_zero,
    List.getD_cons_succ]
  rw [Nat.mod_eq_of_lt hdiv]
  exact Nat.mod_add_div _ _

/-- Witness for C6 (amended) at a concrete 3-byte frame. -/
theorem length_field_value_witness :
    ([7, 8, 9] : List Nat).length ≤ 65520 ∧
    ∃ bytes, Request.to_bytes
        { header := { msg_id := 5, logger_serial := [1, 2, 3, 4] }
          payload := { frame_type := .SolarInverter, sensor_type := 0,
                       total_working_second := 0, uptime_second := 0,
                       offset_seconds := 0, modbus_rtu_frame := [7, 8, 9] } } = some bytes ∧
      bytes.getD 1 0 + 256 * bytes.getD 2 0 = 15 + ([7, 8, 9] : List Nat).length :=
  ⟨by decide, length_field_value _ _ (by decide)⟩

/-- C4: the encoded Request is exactly, in order: start byte `0xA5`, the
payload length `15 + N` little-endian, control bytes `0x10 0x45`, the
message id little-endian, the 4 serial bytes, the frame-type tag byte
(with `SolarInverter = 0x02`), the sensor type big-endian, the three
timing fields little-endian, the frame verbatim, one checksum byte, and
the terminator `0x15`. -/
theorem request_wire_layout (m sensor tw up off : Nat) (ft : RequestFrameType)
    (s0 s1 s2 s3 : Nat) (frame : List Nat) (h : frame.length ≤ 65520) :
    (∃ c, Request.to_bytes
        { header := { msg_id := m, logger_serial := [s0, s1, s2, s3] }
          payload := { frame_type := ft, sensor_type := sensor,
                       total_working_second := tw, uptime_second := up,
                       offset_seconds := off, modbus_rtu_frame := frame } } =
      some ([0xA5] ++ u16_to_le_bytes (15 + frame.length) ++ [0x10, 0x45] ++
        u16_to_le_bytes m ++ [s0, s1, s2, s3] ++ [ft.toU8] ++
        u16_to_be_bytes sensor ++ u32_to_le_bytes tw ++ u32_to_le_bytes up ++
        u32_to_le_bytes off ++ frame ++ [c, 0x15])) ∧
      RequestFrameType.SolarInverter.toU8 = 0x02 := by
  refine ⟨⟨_, Request.to_bytes_some _ h⟩, rfl⟩

/-- Witness for C4 at a concrete request. -/
theorem request_wire_layout_witness :
    ([171, 205] : List Nat).length ≤ 65520 ∧
    ((∃ c, Request.to_bytes
        { header := { msg_id := 258, logger_serial := [9, 8, 7, 6] }
          payload := { frame_type := .SolarInverter, sensor_type := 772,
                       total_working_second := 1, uptime_second := 2,
                       offset_seconds := 3, modbus_rtu_frame := [171, 205] } } =
      some ([0xA5] ++ u16_to_le_bytes (15 + ([171, 205] : List Nat).length) ++ [0x10, 0x45] ++
        u16_to_le_bytes 258 ++ [9, 8, 7, 6] ++ [RequestFrameType.SolarInverter.toU8] ++
        u16_to_be_bytes 772 ++ u32_to_le_bytes 1 ++ u32_to_le_bytes 2 ++
        u32_to_le_bytes 3 ++ [171, 205] ++ [c, 0x15])) ∧
      RequestFrameType.SolarInverter.toU8 = 0x02) :=
  ⟨by decide, request_wire_layout 258 772 1 2 3 .SolarInverter 9 8 7 6 [171, 205] (by decide)⟩

/-- C5: in every encoded Request whose embedded frame has length `N`, the
checksum byte sits at index `26 + N` and equals the sum modulo 256 of the
assembled header+payload bytes from index 1 (excluding the start byte)
up to but excluding index `26 + N`. -/
theorem request_checksum (r : Request) (h4 : r.header.logger_serial.length = 4)
    (h : r.payload.modbus_rtu_frame.length ≤ 65520) :
    ∃ bytes, Request.to_bytes r = some bytes ∧
      bytes.length = 28 + r.payload.modbus_rtu_frame.length ∧
      bytes.getD (26 + r.payload.modbus_rtu_frame.length) 0 =
        ((bytes.take (26 + r.payload.modbus_rtu_frame.length)).drop 1).sum % 256 := by
  have hA := assembled_length r h4
  refine ⟨_, Request.to_bytes_some r h, ?_, ?_⟩
  · simp only [List.length_append, hA, List.length_cons, List.length_nil]
    omega
  · rw [List.take_left' hA, List.getD_eq_getElem?_getD,
      List.getElem?_append_right hA.le, hA]
    simp only [Nat.sub_self, List.getElem?_cons_zero, Option.getD_some]
    exact Nat.mod_mod_of_dvd _ (by norm_num)

/-- Witness for C5 at a concrete request. -/
theorem request_checksum_witness :
    ([1, 2, 3, 4] : List Nat).length = 4 ∧
    ([5, 6] : List Nat).length ≤ 65520 ∧
    (∃ bytes, Request.to_bytes
        { header := { msg_id := 0, logger_serial := [1, 2, 3, 4] }
          payload := { frame_type := .SolarInverter, sensor_type := 0,
                       total_working_second := 0, uptime_second := 0,
                       offset_seconds := 0, modbus_rtu_frame := [5, 6] } } = some bytes ∧
      bytes.length = 28 + 2 ∧
      bytes.getD (26 + 2) 0 = ((bytes.take (26 + 2)).drop 1).sum % 256) :=
  ⟨by decide, by decide,
    request_checksum
      { header := { msg_id := 0, logger_serial := [1, 2, 3, 4] }
        payload := { frame_type := .SolarInverter, sensor_type := 0,
                     total_working_second := 0, uptime_second := 0,
                     offset_seconds := 0, modbus_rtu_frame := [5, 6] } }
      (by decide) (by decide)⟩

/-- Helper: taking `length - 27` elements of the drop-25 suffix of an
encoded request buffer keeps one leading byte and then exactly the
embedded frame, cutting off the trailing checksum and terminator. -/
theorem take_encoded_tail (f : List Nat) (c : Nat) (E : List Nat)
    (hE : E.drop 25 = 0 :: (f ++ [c, 21])) (hlen : E.length = 28 + f.length) :
    (E.drop 25).take (E.length - 27) = 0 :: f := by
  rw [hE, hlen, show 28 + f.length - 27 = f.length + 1 from by omega,
    List.take_succ_cons, List.take_append_of_le_length (Nat.le_refl _), List.take_length]

/-- C1 counterexample: encoding the handshake-shaped Request with serial
`[1,2,3,4]` and an empty embedded frame and decoding the result with the
Response decoder yields the serial, but the decoded embedded frame is
`[0]` (the final timing byte), not the original empty frame. -/
theorem round_trip_cex :
    Request.to_bytes
        { header := { msg_id := 0, logger_serial := [1, 2, 3, 4] }
          payload := { frame_type := .SolarInverter, sensor_type := 0,
                       total_working_second := 0, uptime_second := 0,
                       offset_seconds := 0, modbus_rtu_frame := [] } } =
      some [165, 15, 0, 16, 69, 0, 0, 1, 2, 3, 4,
            2, 0, 0, 0, 0, 0, 0, 0, 0, 0, 0, 0, 0, 0, 0, 112, 21] ∧
    Response.from_bytes
        [165, 15, 0, 16, 69, 0, 0, 1, 2, 3, 4,
         2, 0, 0, 0, 0, 0, 0, 0, 0, 0, 0, 0, 0, 0, 0, 112, 21] =
      some { header := { length := 15, msg_id := [0, 0], logger_serial := [1, 2, 3, 4] }
             payload := { status := 0, total_working_time := [0, 0, 0, 0],
                          power_on_time := [0, 0, 0, 0], offset_time := [0, 0, 0, 0],
                          rtu_frame := [0], checksum := 112 } } ∧
    ([0] : List Nat) ≠ [] := by
  refine ⟨by decide, by decide, by decide⟩

/-- C1 (amended): for every embedded frame of length `N ≤ 65520` and
every 4-byte serial, encoding the Request (message id 0, frame type
SolarInverter, sensor type 0, zero timing fields) and decoding the bytes
with the Response decoder recovers the serial exactly, while the decoded
embedded frame is the original frame preceded by one extra byte — the
final (zero) timing byte — because the response layout places the frame
one byte earlier than the request layout. -/
theorem round_trip_amended (s0 s1 s2 s3 : Nat) (f : List Nat) (h : f.length ≤ 65520) :
    ∃ bytes r, Request.to_bytes
        { header := { msg_id := 0, logger_serial := [s0, s1, s2, s3] }
          payload := { frame_type := .SolarInverter, sensor_type := 0,
                       total_working_second := 0, uptime_second := 0,
                       offset_seconds := 0, modbus_rtu_frame := f } } = some bytes ∧
      Response.from_bytes bytes = some r ∧
      r.header.logger_serial = [s0, s1, s2, s3] ∧
      r.payload.rtu_frame = 0 :: f := by
  have henc := Request.to_bytes_some
    { header := { msg_id := 0, logger_serial := [s0, s1, s2, s3] }
      payload := { frame_type := .SolarInverter, sensor_type := 0,
                   total_working_second := 0, uptime_second := 0,
                   offset_seconds := 0, modbus_rtu_frame := f } } h
  simp only [RequestHeader.to_bytes, RequestPayload.to_bytes, RequestFrameType.toU8,
    u16_to_le_bytes, u16_to_be_bytes, u32_to_le_bytes, Nat.zero_mod, Nat.zero_div,
    List.append_assoc, List.cons_append, List.nil_append] at henc
  refine ⟨_, _, henc, Response.from_bytes_eq _ ?_, ?_, ?_⟩
  · simp only [List.length_cons, List.length_append, List.length_nil]
    omega
  · rfl
  · refine take_encoded_tail f _ _ rfl ?_
    simp only [List.length_cons, List.length_append, List.length_nil]
    omega

/-- Witness for C1 (amended) at serial `[1,2,3,4]` and frame `[9]`. -/
theorem round_trip_amended_witness :
    ([9] : List Nat).length ≤ 65520 ∧
    (∃ bytes r, Request.to_bytes
        { header := { msg_id := 0, logger_serial := [1, 2, 3, 4] }
          payload := { frame_type := .SolarInverter, sensor_type := 0,
                       total_working_second := 0, uptime_second := 0,
                       offset_seconds := 0, modbus_rtu_frame := [9] } } = some bytes ∧
      Response.from_bytes bytes = some r ∧
      r.header.logger_serial = [1, 2, 3, 4] ∧
      r.payload.rtu_frame = 0 :: [9]) :=
  ⟨by decide, round_trip_amended 1 2 3 4 [9] (by decide)⟩

set_option maxRecDepth 8192 in
/-- C2 counterexample: decoding a concrete 140-byte buffer yields an
embedded frame of 113 bytes, not 140 − 16 = 124; the `- 16` applies to
the 129-byte payload slice, so the frame length is (140 − 11) − 16. -/
theorem exchange_frame_length_cex :
    (List.replicate 140 0).length = 140 ∧
    (Response.from_bytes (List.replicate 140 0)).map (fun r => r.payload.rtu_frame.length) =
      some 113 ∧
    (113 : Nat) ≠ 124 := by
  refine ⟨by decide, by decide, by decide⟩

/-- C2 (amended): for every 140-byte buffer, decoding succeeds and the
`rtu_frame` field of the decoded Response has length (140 − 11) − 16 =
113, the payload slice length minus the 16 fixed payload bytes. -/
theorem exchange_frame_length (data : List Nat) (h : data.length = 140) :
    ∃ r, Response.from_bytes data = some r ∧ r.payload.rtu_frame.length = 113 := by
  refine ⟨_, Response.from_bytes_eq data (by omega), ?_⟩
  simp only [List.length_take, List.length_drop, h]
  omega

set_option maxRecDepth 8192 in
/-- Witness for C2 (amended) at the all-zero 140-byte buffer. -/
theorem exchange_frame_length_witness :
    (List.replicate 140 0).length = 140 ∧
    (∃ r, Response.from_bytes (List.replicate 140 0) = some r ∧
      r.payload.rtu_frame.length = 113) :=
  ⟨by decide, exchange_frame_length _ (by decide)⟩

/-- C7: for every 29-byte handshake response buffer, decoding yields as
the header's logger serial exactly bytes 7..10 of the buffer, a
successful handshake sets the session's serial to exactly that value,
and the handshake request carries message id 0, the all-zero serial,
frame type SolarInverter, sensor type 0, zero timing fields and an empty
embedded frame. -/
theorem handshake_detect_serial (dev : SolarmanDevice) (buf : List Nat)
    (hser : dev.logger_serial = [0, 0, 0, 0]) (hb : buf.length = 29) :
    (dev.detect_serial buf).2 = some { dev with logger_serial := (buf.drop 7).take 4 } ∧
    (∃ r, Response.from_bytes buf = some r ∧
      r.header.logger_serial = (buf.drop 7).take 4) ∧
    (dev.detect_serial buf).1 = Request.to_bytes
      { header := { msg_id := 0, logger_serial := [0, 0, 0, 0] }
        payload := { frame_type := .SolarInverter, sensor_type := 0,
                     total_working_second := 0, uptime_second := 0,
                     offset_seconds := 0, modbus_rtu_frame := [] } } := by
  have hdec := Response.from_bytes_eq buf (by omega)
  refine ⟨?_, ⟨_, hdec, rfl⟩, ?_⟩
  · simp only [SolarmanDevice.detect_serial, hdec]
  · simp only [SolarmanDevice.detect_serial, detect_serial_request, hser]

/-- Witness for C7 on the buffer `List.range 29`, whose bytes 7..10 are
`[7, 8, 9, 10]`. -/
theorem handshake_detect_serial_witness :
    (SolarmanDevice.new 0 0 0).logger_serial = [0, 0, 0, 0] ∧
    (List.range 29).length = 29 ∧
    (((SolarmanDevice.new 0 0 0).detect_serial (List.range 29)).2 =
        some { SolarmanDevice.new 0 0 0 with logger_serial := ((List.range 29).drop 7).take 4 } ∧
      (∃ r, Response.from_bytes (List.range 29) = some r ∧
        r.header.logger_serial = ((List.range 29).drop 7).take 4) ∧
      ((SolarmanDevice.new 0 0 0).detect_serial (List.range 29)).1 = Request.to_bytes
        { header := { msg_id := 0, logger_serial := [0, 0, 0, 0] }
          payload := { frame_type := .SolarInverter, sensor_type := 0,
                       total_working_second := 0, uptime_second := 0,
                       offset_seconds := 0, modbus_rtu_frame := [] } }) :=
  ⟨by decide, by decide, handshake_detect_serial _ _ (by decide) (by decide)⟩

/-- Helper: the decoded RTU frame depends only on the buffer's prefix up
to (excluding) the last two bytes. -/
theorem rtu_slice_from_front (d : List Nat) :
    (d.drop 25).take (d.length - 27) = (d.take (d.length - 2)).drop 25 := by
  rw [List.drop_take]
  congr 1

/-- C8: response decoding never validates the checksum or terminator
byte: any two sufficiently long buffers of equal length that agree on
everything except (possibly) the last two bytes — the checksum byte and
the terminator byte — both decode successfully, and to the same embedded
RTU frame. -/
theorem checksum_not_validated (d1 d2 : List Nat) (hl : d1.length = d2.length)
    (h : 27 ≤ d1.length) (hpre : d1.take (d1.length - 2) = d2.take (d2.length - 2)) :
    ∃ r1 r2, Response.from_bytes d1 = some r1 ∧ Response.from_bytes d2 = some r2 ∧
      r1.payload.rtu_frame = r2.payload.rtu_frame := by
  refine ⟨_, _, Response.from_bytes_eq d1 h, Response.from_bytes_eq d2 (by omega), ?_⟩
  rw [rtu_slice_from_front d1, rtu_slice_from_front d2, hpre]

/-- Witness for C8: two 27-byte buffers differing exactly in the two
final (checksum and terminator) bytes. -/
theorem checksum_not_validated_witness :
    (List.replicate 27 0).length = (List.replicate 25 0 ++ [7, 9]).length ∧
    27 ≤ (List.replicate 27 0).length ∧
    (List.replicate 27 0).take ((List.replicate 27 0).length - 2) =
      (List.replicate 25 0 ++ [7, 9]).take ((List.replicate 25 0 ++ [7, 9]).length - 2) ∧
    (∃ r1 r2, Response.from_bytes (List.replicate 27 0) = some r1 ∧
      Response.from_bytes (List.replicate 25 0 ++ [7, 9]) = some r2 ∧
      r1.payload.rtu_frame = r2.payload.rtu_frame) :=
  ⟨by decide, by decide, by decide,
    checksum_not_validated _ _ (by decide) (by decide) (by decide)⟩

/-- C9: an exchange never mutates the session: whether it succeeds or
fails, `send_modbus_frame` leaves the device — its `logger_serial`,
`addr`, `port` and `timeout` — exactly as it was, so there is no
transition back to a zero-serial state. -/
theorem exchange_preserves_session (dev : SolarmanDevice) (frame : List Nat)
    (net : Option (List Nat)) :
    (dev.send_modbus_frame frame net).1 = dev ∧
    (dev.send_modbus_frame frame net).1.logger_serial = dev.logger_serial ∧
    (dev.send_modbus_frame frame net).1.addr = dev.addr ∧
    (dev.send_modbus_frame frame net).1.port = dev.port ∧
    (dev.send_modbus_frame frame net).1.timeout = dev.timeout := by
  have h1 : (dev.send_modbus_frame frame net).1 = dev := by
    dsimp only [SolarmanDevice.send_modbus_frame]
    repeat' split
    all_goals rfl
  exact ⟨h1, by rw [h1], by rw [h1], by rw [h1], by rw [h1]⟩

/-- C10: decoding parses the header's declared length field but never
checks it against the buffer nor uses it to bound the embedded frame:
for any sufficiently long buffer the frame is the slice from offset 25
up to the last two bytes, and two buffers that differ only in bytes 1-2
(the declared length field) both decode, to the same embedded frame. -/
theorem declared_length_not_used (d1 d2 : List Nat) (hl : d1.length = d2.length)
    (h : 27 ≤ d1.length) (h0 : d1.take 1 = d2.take 1) (h3 : d1.drop 3 = d2.drop 3) :
    ∃ r1 r2, Response.from_bytes d1 = some r1 ∧ Response.from_bytes d2 = some r2 ∧
      r1.header.length = d1.getD 1 0 + 256 * d1.getD 2 0 ∧
      r1.payload.rtu_frame = (d1.drop 25).take (d1.length - 27) ∧
      r2.payload.rtu_frame = r1.payload.rtu_frame := by
  refine ⟨_, _, Response.from_bytes_eq d1 h, Response.from_bytes_eq d2 (by omega),
    rfl, rfl, ?_⟩
  have hdd : ∀ d : List Nat, List.drop 22 (List.drop 3 d) = List.drop 25 d := by
    intro d
    rw [List.drop_drop]
  have h25 : d2.drop 25 = d1.drop 25 := by
    rw [← hdd d1, ← hdd d2, h3]
  rw [h25, hl]

/-- Witness for C10: two 27-byte buffers differing exactly in the
declared length field bytes at offsets 1 and 2. -/
theorem declared_length_not_used_witness :
    (List.replicate 27 0).length = ([0, 255, 255] ++ List.replicate 24 0).length ∧
    27 ≤ (List.replicate 27 0).length ∧
    (List.replicate 27 0).take 1 = ([0, 255, 255] ++ List.replicate 24 0).take 1 ∧
    (List.replicate 27 0).drop 3 = ([0, 255, 255] ++ List.replicate 24 0).drop 3 ∧
    (∃ r1 r2, Response.from_bytes (List.replicate 27 0) = some r1 ∧
      Response.from_bytes ([0, 255, 255] ++ List.replicate 24 0) = some r2 ∧
      r1.header.length = (List.replicate 27 0).getD 1 0 +
        256 * (List.replicate 27 0).getD 2 0 ∧
      r1.payload.rtu_frame =
        ((List.replicate 27 0).drop 25).take ((List.replicate 27 0).length - 27) ∧
      r2.payload.rtu_frame = r1.payload.rtu_frame) :=
  ⟨by decide, by decide, by decide, by decide,
    declared_length_not_used _ _ (by decide) (by decide) (by decide) (by decide)⟩
